import Mathlib

/-!
Shallow embedding of the asynchronous job continuation protocol of the
`replicate_image_ai` MCP server: the bounded waiter (`WaitForCompletion` in
`pkg/client/replicate.go`), the pending-operation registry
(`pkg/handler/pending.go`), the timeout configuration
(`pkg/config/timeouts.go`), the continuation handler
(`handleContinueOperation` in `pkg/handler/generate_handlers.go`), and the two
dispatch paths (`GenerateImage` in `pkg/generation/generate.go`,
`GenerateWithVisualContext` in `pkg/generation/visual_context.go`, and their
handlers).

Time is modelled in whole seconds as `Nat`.  Polling of the upstream provider
is a time-indexed script `Nat → PollRes`.  Go `select` between a context-done
channel and the 2-second ticker is modelled deterministically with the
cancellation signal winning exact ties (both channels ready at the same
second); the one place where a tie between two independent 15-second timers is
a genuine race (`visual_context.go`) carries an explicit boolean scheduling
parameter.
-/

/-- Job status of a Replicate prediction (`pkg/types`: starting, processing,
succeeded, failed, canceled). -/
inductive JobStatus
  | starting
  | processing
  | succeeded
  | failed
  | canceled
deriving Repr, DecidableEq

/-- Terminal statuses: succeeded, failed, canceled. -/
def JobStatus.isTerminal : JobStatus → Bool
  | .succeeded => true
  | .failed => true
  | .canceled => true
  | _ => false

/-- The `Output` field of a prediction response: Go `interface{}` that the code
inspects as either a `[]interface{}` of strings or a single string. -/
inductive GoOutput
  | null
  | str (s : String)
  | arr (l : List String)
deriving Repr, DecidableEq

/-- A Replicate prediction response (`types.ReplicatePredictionResponse`),
restricted to the fields the protocol code reads. -/
structure Prediction where
  id : String
  status : JobStatus
  output : GoOutput
  error : Option String
deriving Repr, DecidableEq

/-- Result of one `GetPrediction` call: the parsed response or a transport
error. -/
inductive PollRes
  | ok (p : Prediction)
  | err (msg : String)
deriving Repr, DecidableEq

/-- Output-URL extraction shared by `handleContinueOperation`,
`GenerateImage` and `GenerateWithVisualContext`: first element of a string
array, or the string itself, else the empty string. -/
def extractOutputURL : Option Prediction → String
  | none => ""
  | some p =>
    match p.output with
    | .arr (u :: _) => u
    | .arr [] => ""
    | .str u => u
    | .null => ""

/-- Error message taken from a failed prediction
(`WaitForCompletion`, `case types.StatusFailed`): the `Error` field if
present, else the fixed fallback text. -/
def predErrMsg (p : Prediction) : String :=
  match p.error with
  | some s => s
  | none => "prediction failed"

/-- The error component of `WaitForCompletion`'s Go return value. -/
inductive WErr
  | ctxDone
  | timedOutAfter
  | pollErr (msg : String)
  | predFailed (msg : String)
  | predCanceled
deriving Repr, DecidableEq

/-- Return value of `WaitForCompletion`: the prediction pointer, the error,
and the time (seconds since some origin) at which the call returns. -/
structure WaitRet where
  pred : Option Prediction
  err : Option WErr
  retTime : Nat
deriving Repr, DecidableEq

/-- Does the context-done channel fire at or before time `t`?  Returns the
firing time when it does. -/
def ctxFire (cancelAt : Option Nat) (t : Nat) : Option Nat :=
  match cancelAt with
  | some c => if c ≤ t then some c else none
  | none => none

/-- The poll loop of `WaitForCompletion` (`pkg/client/replicate.go`): a
2-second ticker; on each tick, if the deadline has strictly passed
(`time.Now().After(deadline)`) do one final `GetPrediction` whose error is
discarded and return the timeout error; otherwise poll, returning immediately
on a transport error or a terminal status, and looping on starting/processing.
The context-done channel preempts a tick whenever it fires no later than that
tick. -/
def waitLoop (poll : Nat → PollRes) (cancelAt : Option Nat) (deadline : Nat)
    (now : Nat) : WaitRet :=
  let nextTick := now + 2
  match ctxFire cancelAt nextTick with
  | some c => ⟨none, some .ctxDone, max now c⟩
  | none =>
    if deadline < nextTick then
      match poll nextTick with
      | .ok p => ⟨some p, some .timedOutAfter, nextTick⟩
      | .err _ => ⟨none, some .timedOutAfter, nextTick⟩
    else
      match poll nextTick with
      | .err m => ⟨none, some (.pollErr m), nextTick⟩
      | .ok p =>
        if p.status = .succeeded then ⟨some p, none, nextTick⟩
        else if p.status = .failed then
          ⟨some p, some (.predFailed (predErrMsg p)), nextTick⟩
        else if p.status = .canceled then
          ⟨some p, some .predCanceled, nextTick⟩
        else waitLoop poll cancelAt deadline nextTick
termination_by deadline + 2 - now
decreasing_by omega

/-- `WaitForCompletion(ctx, id, timeout)` started at absolute time `t0`, with
the context-done channel firing at `cancelAt` (if ever): the deadline is
`t0 + timeout` and ticks occur at `t0 + 2, t0 + 4, …`. -/
def WaitForCompletion (poll : Nat → PollRes) (cancelAt : Option Nat)
    (timeout t0 : Nat) : WaitRet :=
  waitLoop poll cancelAt (t0 + timeout) t0

/-- Result of Go's `ctx.Err()`. -/
inductive CtxErr
  | canceled
  | deadlineExceeded
deriving Repr, DecidableEq

/-- `ctx.Err()` at time `t` for a context built by `context.WithTimeout`
from a parent that is cancelled at `parentCancelAt` (if ever) with deadline
`deadlineAt`: the parent's cancellation wins when it fires strictly first. -/
def ctxErrAt (parentCancelAt : Option Nat) (deadlineAt t : Nat) :
    Option CtxErr :=
  match parentCancelAt with
  | some c =>
    if c < deadlineAt ∧ c ≤ t then some .canceled
    else if deadlineAt ≤ t then some .deadlineExceeded
    else none
  | none => if deadlineAt ≤ t then some .deadlineExceeded else none

/-- True when the script's poll at time `t` returns a well-formed,
non-terminal prediction. -/
def pollNonTerminal (poll : Nat → PollRes) (t : Nat) : Bool :=
  match poll t with
  | .ok p => !p.status.isTerminal
  | .err _ => false

/-- A pending operation (`pkg/handler/pending.go`): `Params` is an opaque
map the protocol code only passes through, modelled as an association list. -/
structure PendingOperation where
  predictionID : String
  storageID : String
  operation : String
  startTime : Nat
  model : String
  params : List (String × String)
deriving Repr, DecidableEq

/-- The pending-operations registry (`PendingOperationsManager`): the
mutex-guarded Go map, modelled as an association list whose `Add` and
`Remove` keep keys unique. -/
structure PendingOperationsManager where
  operations : List (String × PendingOperation)
deriving Repr, DecidableEq

/-- `Add`: insert or overwrite the binding for `predictionID`. -/
def PendingOperationsManager.Add (pom : PendingOperationsManager)
    (predictionID : String) (op : PendingOperation) :
    PendingOperationsManager :=
  ⟨(predictionID, op) :: pom.operations.filter (fun kv => kv.1 ≠ predictionID)⟩

/-- `Get`: look up a pending operation by prediction ID. -/
def PendingOperationsManager.Get (pom : PendingOperationsManager)
    (predictionID : String) : Option PendingOperation :=
  match pom.operations.find? (fun kv => kv.1 = predictionID) with
  | some kv => some kv.2
  | none => none

/-- `Remove`: delete the binding for `predictionID`. -/
def PendingOperationsManager.Remove (pom : PendingOperationsManager)
    (predictionID : String) : PendingOperationsManager :=
  ⟨pom.operations.filter (fun kv => kv.1 ≠ predictionID)⟩

/-- One cycle of the background sweep `cleanupExpired`, run at time `now`:
delete every entry whose age strictly exceeds the hard-coded ten minutes
(600 seconds).  The Go loop runs this body on a fixed one-minute ticker. -/
def PendingOperationsManager.cleanupCycle (pom : PendingOperationsManager)
    (now : Nat) : PendingOperationsManager :=
  ⟨pom.operations.filter (fun kv => ¬ 600 < now - kv.2.startTime)⟩

/-- The static typical-duration table of `EstimateRemainingTime`
(`pkg/handler/pending.go`), with the default of 30 seconds for unknown
operation kinds. -/
def typicalTime (operation : String) : Int :=
  if operation = "generate_image" then 30
  else if operation = "generate_with_visual_context" then 45
  else if operation = "edit_image" then 35
  else if operation = "remove_background" then 20
  else if operation = "upscale_image" then 25
  else if operation = "enhance_face" then 20
  else if operation = "restore_photo" then 30
  else 30

/-- `EstimateRemainingTime(operation, elapsed)`: typical duration minus whole
elapsed seconds, clamped below at 5 and above at 60. -/
def EstimateRemainingTime (operation : String) (elapsedSec : Nat) : Int :=
  let remaining : Int := typicalTime operation - (elapsedSec : Int)
  if remaining < 5 then 5
  else if remaining > 60 then 60
  else remaining

/-- The response strings produced by `pkg/responses/responses.go`, abstracted
to their discriminating fields.  `processing` is `BuildProcessingResponse`
(`success:false, status:"processing"` with the prediction ID, storage ID and
estimate), `success` is `BuildSuccessResponse`, `simpleSuccess` is
`BuildSimpleSuccessResponse`, and `error` is `BuildErrorResponse`. -/
inductive Response
  | processing (operation predictionID storageID : String)
      (estimatedRemaining : Int)
  | success (operation id : String) (paths : List (String × String))
      (predictionID : String)
  | simpleSuccess (operation message : String)
  | error (operation errorType message : String)
deriving Repr, DecidableEq

/-- Outcome of a tool-call handler: a `(*CallToolResponse, nil)` pair, a
`(nil, err)` pair, or a Go runtime panic. -/
inductive HandlerResult
  | resp (r : Response)
  | goError (msg : String)
  | panic (msg : String)
deriving Repr, DecidableEq

/-- True exactly for a `processing` response. -/
def HandlerResult.isProcessing : HandlerResult → Bool
  | .resp (.processing _ _ _ _) => true
  | _ => false

/-- True exactly for a runtime panic. -/
def HandlerResult.isPanic : HandlerResult → Bool
  | .panic _ => true
  | _ => false

/-- The external world a continuation call interacts with: the poll script,
the artifact store (`SaveImage` maps storage ID, URL and filename to a local
path or an error; `SaveMetadata` failures are only logged), and the moment
the caller-side parent context is cancelled, if ever. -/
structure ContinueWorld where
  poll : Nat → PollRes
  saveImage : String → String → String → Except String String
  saveMetadataOk : Bool
  fileSize : String → Int
  parentCancelAt : Option Nat

/-- Arguments of the `continue_operation` tool: `prediction_id` (absent when
missing or not a string) and the optional `wait_time` (a Go float64 the code
truncates to int; modelled as the truncated integer). -/
structure ContinueArgs where
  predictionID : Option String
  waitTimeArg : Option Int

/-- `wait_time` extraction of `handleContinueOperation`: default 30, clamped
into `[5, 30]` when supplied. -/
def clampWaitTime (waitTimeArg : Option Int) : Int :=
  match waitTimeArg with
  | some wt => if wt < 5 then 5 else if wt > 30 then 30 else wt
  | none => 30

/-- Go error message of `WaitForCompletion`'s error return, as seen by its
callers.  For `ctxDone` the message is whatever `ctx.Err()` prints; the
continuation handler never inspects it, and in `visual_context.go` the
relevant fact is that neither context error message contains the text
"timed out". -/
def werrMsg : WErr → String
  | .ctxDone => "context deadline exceeded"
  | .timedOutAfter => "operation timed out after 15s"
  | .pollErr m => m
  | .predFailed m => m
  | .predCanceled => "prediction was canceled"

/-- Does `pat` occur as a contiguous run inside the list? -/
def subSearch (pat : List Char) : List Char → Bool
  | [] => pat.isEmpty
  | c :: rest => pat.isPrefixOf (c :: rest) || subSearch pat rest

/-- Go `strings.Contains(s, substr)`, as character-list search. -/
def strContainsGo (s sub : String) : Bool :=
  subSearch sub.toList s.toList

/-- Core of `handleContinueOperation` after the pending operation has been
fetched or synthesized: the bounded wait under a `context.WithTimeout` of
`waitN` seconds, then the three-way branch on
`err != nil && ctx.Err() == context.DeadlineExceeded`, `err != nil`, and
success. -/
def continueCore (w : ContinueWorld) (pom : PendingOperationsManager)
    (now0 waitN : Nat) (pid : String) (op : PendingOperation) :
    HandlerResult × PendingOperationsManager :=
  let deadlineAt := now0 + waitN
  let cancelAt : Nat :=
    match w.parentCancelAt with
    | some c => min c deadlineAt
    | none => deadlineAt
  let wret := waitLoop w.poll (some cancelAt) deadlineAt now0
  if wret.err.isSome ∧
      ctxErrAt w.parentCancelAt deadlineAt wret.retTime = some .deadlineExceeded
  then
    let elapsed := wret.retTime - op.startTime
    let estimated := EstimateRemainingTime op.operation elapsed
    (.resp (.processing op.operation pid op.storageID estimated), pom)
  else
    match wret.err with
    | some e => (.goError ("operation failed: " ++ werrMsg e), pom.Remove pid)
    | none =>
      let pom2 := pom.Remove pid
      let outputURL := extractOutputURL wret.pred
      if outputURL = "" then
        (.goError ("no output URL in completed prediction"), pom2)
      else
        let filename := "continued_" ++ pid
        if op.storageID ≠ "" then
          match w.saveImage op.storageID outputURL filename with
          | .error m => (.goError ("failed to save image: " ++ m), pom2)
          | .ok imagePath =>
            (.resp (.success op.operation op.storageID
                [("output", imagePath), ("url", outputURL)] pid), pom2)
        else
          (.resp (.simpleSuccess ("continue_operation")
              ("Operation completed. Output: " ++ outputURL)), pom2)

/-- `handleContinueOperation` (second, authoritative copy in
`pkg/handler/generate_handlers.go`), called at time `now0`: parameter
extraction, registry lookup, synthesis of a best-effort pending operation for
an unknown handle — whose storage ID is `"cont_" + predictionID[:8]`, a Go
string slice that panics when the handle is shorter than 8 bytes — and the
bounded-wait continuation. -/
def handleContinueOperation (w : ContinueWorld)
    (pom : PendingOperationsManager) (now0 : Nat) (args : ContinueArgs) :
    HandlerResult × PendingOperationsManager :=
  match args.predictionID with
  | none => (.goError ("prediction_id is required"), pom)
  | some pid =>
    if pid = "" then (.goError ("prediction_id is required"), pom)
    else
      let waitN := (clampWaitTime args.waitTimeArg).toNat
      match pom.Get pid with
      | some op => continueCore w pom now0 waitN pid op
      | none =>
        if pid.length < 8 then
          (.panic ("slice bounds out of range"), pom)
        else
          let op : PendingOperation :=
            { predictionID := pid
              storageID := "cont_" ++ (pid.take 8)
              operation := "generate_with_visual_context"
              startTime := now0
              model := ""
              params := [] }
          continueCore w pom now0 waitN pid op

/-- Digit-string value: `some n` when the list is nonempty and all decimal
digits. -/
def digitsVal? (cs : List Char) : Option Nat :=
  if cs ≠ [] ∧ cs.all Char.isDigit then
    some (cs.foldl (fun a c => a * 10 + (c.toNat - 48)) 0)
  else none

/-- `strconv.Atoi`: optional sign, decimal digits, 64-bit range; `none` on
empty input, a non-digit character, or overflow (Go reports `ErrRange`, and
`LoadTimeouts` only uses the value when the error is nil). -/
def goAtoi (s : String) : Option Int :=
  match s.toList with
  | '+' :: rest =>
    match digitsVal? rest with
    | some n => if n ≤ 9223372036854775807 then some (n : Int) else none
    | none => none
  | '-' :: rest =>
    match digitsVal? rest with
    | some n => if n ≤ 9223372036854775808 then some (-(n : Int)) else none
    | none => none
  | cs =>
    match digitsVal? cs with
    | some n => if n ≤ 9223372036854775807 then some (n : Int) else none
    | none => none

/-- Timeout configuration (`pkg/config/timeouts.go`), durations in seconds. -/
structure TimeoutConfig where
  InitialWait : Int
  ContinueWait : Int
  MaxOperationTime : Int
  PollInterval : Int
deriving Repr, DecidableEq

/-- `DefaultTimeouts`: 15 s, 30 s, 10 min, 2 s. -/
def DefaultTimeouts : TimeoutConfig :=
  { InitialWait := 15, ContinueWait := 30, MaxOperationTime := 600,
    PollInterval := 2 }

/-- The four environment variables read by `LoadTimeouts`; `none` models an
unset variable (for Go, `os.Getenv` also yields the empty string then). -/
structure TimeoutEnv where
  initialWait : Option String
  continueWait : Option String
  maxOperationTime : Option String
  pollInterval : Option String

/-- One override step of `LoadTimeouts`: keep `cur` unless the variable is a
nonempty string that parses (`strconv.Atoi`) to a strictly positive integer,
in which case use it scaled to seconds (`scale` is 1 for the second-valued
variables, 60 for the minute-valued one). -/
def applyOverride (cur scale : Int) (v : Option String) : Int :=
  match v with
  | none => cur
  | some s =>
    if s = "" then cur
    else
      match goAtoi s with
      | some n => if 0 < n then n * scale else cur
      | none => cur

/-- `LoadTimeouts`: defaults, each field overridden independently from its
environment variable. -/
def LoadTimeouts (env : TimeoutEnv) : TimeoutConfig :=
  { InitialWait := applyOverride 15 1 env.initialWait
    ContinueWait := applyOverride 30 1 env.continueWait
    MaxOperationTime := applyOverride 600 60 env.maxOperationTime
    PollInterval := applyOverride 2 1 env.pollInterval }

/-- Result of the polling loop inside `GenerateImage`
(`pkg/generation/generate.go`): up to 60 `GetPrediction` calls, 2 s apart. -/
inductive GenLoopRes
  | pollFail (msg : String)
  | genFailed (p : Prediction)
  | done (p : Prediction)
  | timeout
deriving Repr, DecidableEq

/-- The `for i := 0; i < maxAttempts; i++` loop of `GenerateImage`: stop on a
poll error, a succeeded status (break), or a failed/canceled status; when all
attempts see a non-terminal status the loop exhausts and the caller reports a
timeout.  `i` is the attempt index, `fuel` the remaining attempts. -/
def genPollLoop (poll : Nat → PollRes) : Nat → Nat → GenLoopRes
  | _, 0 => .timeout
  | i, fuel + 1 =>
    match poll i with
    | .err m => .pollFail m
    | .ok p =>
      if p.status = .succeeded then .done p
      else if p.status = .failed ∨ p.status = .canceled then .genFailed p
      else genPollLoop poll (i + 1) fuel

/-- `generation.ImageResult`, restricted to the fields the handlers read.
`status` and `storageID` are Go zero values (`""`) unless the producing
function assigns them — `GenerateImage` in `generate.go` never does. -/
structure ImageResultM where
  id : String
  url : String
  filePath : String
  model : String
  prompt : String
  status : String
  predictionID : String
  storageID : String
deriving Repr, DecidableEq

/-- Result of a generation call: an `ImageResult`, a typed
`generation.GenerationError`, or a plain wrapped error. -/
inductive GenResult
  | ok (r : ImageResultM)
  | genError (code message : String)
  | plainError (msg : String)
deriving Repr, DecidableEq

/-- External collaborators of a dispatch: ID generation, prediction
submission, the poll script, and artifact storage. -/
structure DispatchWorld where
  generateID : Except String String
  createPrediction : Except String Prediction
  poll : Nat → PollRes
  saveImage : String → String → String → Except String String
  saveMetadataOk : Bool
  /-- Resolution of the `visual_context.go` outer `select` when the inner
  wait's result and the 15-second timer become ready at the same second:
  `true` means the result channel is read first. -/
  raceResultChanWins : Bool

/-- Short status string used in `GenerateImage`'s failure message. -/
def statusText : JobStatus → String
  | .starting => "starting"
  | .processing => "processing"
  | .succeeded => "succeeded"
  | .failed => "failed"
  | .canceled => "canceled"

/-- `GenerateImage` (`pkg/generation/generate.go`, the generator that
`NewReplicateImageHandler` wires in): validation, submission, then a blocking
poll loop of 60 attempts at 2-second intervals with no initial-wait bound;
a still-running job after the last attempt yields the `timeout`
`GenerationError`, never a `processing` result.  The model-alias table and
filename generation are payload plumbing no claim depends on; the model
reference passes through unchanged and the filename is the fixed hint.
On success `status` is left at its Go zero value `""`. -/
def GenerateImage (w : DispatchWorld) (prompt model : String) : GenResult :=
  if prompt = "" then
    .genError ("invalid_parameters") ("prompt is required")
  else
    match w.generateID with
    | .error m => .plainError ("failed to generate ID: " ++ m)
    | .ok id =>
      match w.createPrediction with
      | .error m => .plainError ("failed to create prediction: " ++ m)
      | .ok prediction =>
        match genPollLoop w.poll 0 60 with
        | .pollFail m =>
          .plainError ("failed to get prediction status: " ++ m)
        | .genFailed p =>
          .genError ("generation_failed")
            ("Generation " ++ statusText p.status ++ ": " ++ predErrMsg p)
        | .timeout => .genError ("timeout") ("Generation timed out")
        | .done res =>
          let outputURL := extractOutputURL (some res)
          if outputURL = "" then
            .genError ("no_output") ("No output URL in result")
          else
            match w.saveImage id outputURL ("generated.png") with
            | .error m => .plainError ("failed to save image: " ++ m)
            | .ok imagePath =>
              .ok { id := id, url := outputURL, filePath := imagePath,
                    model := model, prompt := prompt, status := "",
                    predictionID := prediction.id, storageID := "" }

/-- `handleGenerateImage` (`pkg/handler/generate_handlers.go`), called at time
`now0`: prompt validation, the generation call, then either an error
response, registration plus a processing response with the fixed initial
estimate 30, or a success response.  Optional payload-shaping arguments are
out of protocol scope. -/
def handleGenerateImage (w : DispatchWorld) (pom : PendingOperationsManager)
    (now0 : Nat) (prompt : Option String) (model : String) :
    HandlerResult × PendingOperationsManager :=
  match prompt with
  | none =>
    (.resp (.error ("generate_image") ("invalid_parameters")
        ("prompt parameter is required")), pom)
  | some pr =>
    if pr = "" then
      (.resp (.error ("generate_image") ("invalid_parameters")
          ("prompt parameter is required")), pom)
    else
      match GenerateImage w pr model with
      | .genError code msg =>
        (.resp (.error ("generate_image") code msg), pom)
      | .plainError msg =>
        (.resp (.error ("generate_image") ("generation_error") msg), pom)
      | .ok result =>
        if result.status = "processing" then
          let pom2 := pom.Add result.predictionID
            { predictionID := result.predictionID
              storageID := result.storageID
              operation := "generate_image"
              startTime := now0
              model := result.model
              params := [] }
          (.resp (.processing ("generate_image") result.predictionID
              result.storageID 30), pom2)
        else
          (.resp (.success ("generate_image") result.id
              [("file_path", result.filePath), ("url", result.url)]
              result.predictionID), pom)

/-- `GenerateWithVisualContext` (`pkg/generation/visual_context.go`):
after validation and submission, a goroutine runs
`WaitForCompletion(ctx15s, id, 15s)` — `ctx15s` carries its own 15-second
deadline — and the function selects between that goroutine's result channel
and a fresh `time.After(15s)` timer.  When the job is still running at 15 s
both channels become ready in the same second and Go's `select` picks one at
random (`raceResultChanWins`); only the timer branch produces an error
containing "timed out", which is what the subsequent check looks for.
Validation of reference images/tags happens before submission; this model
takes the already-validated inputs, with `validationFail` covering the
locally rejected calls. -/
def GenerateWithVisualContext (w : DispatchWorld) (prompt : String)
    (validationFail : Option String) : GenResult :=
  match validationFail with
  | some msg => .genError ("invalid_parameters") msg
  | none =>
    match w.generateID with
    | .error m => .plainError ("failed to generate ID: " ++ m)
    | .ok id =>
      match w.createPrediction with
      | .error m => .plainError ("failed to create prediction: " ++ m)
      | .ok prediction =>
        let wret := waitLoop w.poll (some 15) 15 0
        let chosen : Option Prediction × Option WErr :=
          if wret.retTime < 15 then (wret.pred, wret.err)
          else if w.raceResultChanWins then (wret.pred, wret.err)
          else (none, some .timedOutAfter)
        let result := chosen.1
        let err := chosen.2
        match err with
        | some e =>
          if strContainsGo (werrMsg e) ("timed out") then
            .ok { id := id, url := "", filePath := "",
                  model := "runwayml/gen4-image", prompt := prompt,
                  status := "processing", predictionID := prediction.id,
                  storageID := id }
          else
            .genError ("generation_failed")
              ("Generation failed: " ++ werrMsg e)
        | none =>
          let outputURL := extractOutputURL result
          if outputURL = "" then
            .genError ("no_output") ("No output URL in result")
          else
            match w.saveImage id outputURL ("generated.png") with
            | .error m => .plainError ("failed to save image: " ++ m)
            | .ok imagePath =>
              .ok { id := id, url := outputURL, filePath := imagePath,
                    model := "runwayml/gen4-image", prompt := prompt,
                    status := "completed", predictionID := prediction.id,
                    storageID := id }

/-- `handleGenerateWithVisualContext` (`pkg/handler/generate_handlers.go`),
called at time `now0`: on a `processing` result it registers the pending
operation and returns a processing response with the fixed initial estimate
45; errors become error responses; otherwise it builds the success
response. -/
def handleGenerateWithVisualContext (w : DispatchWorld)
    (pom : PendingOperationsManager) (now0 : Nat) (prompt : Option String)
    (validationFail : Option String) :
    HandlerResult × PendingOperationsManager :=
  match prompt with
  | none =>
    (.resp (.error ("generate_with_visual_context") ("invalid_parameters")
        ("prompt parameter is required")), pom)
  | some pr =>
    if pr = "" then
      (.resp (.error ("generate_with_visual_context") ("invalid_parameters")
          ("prompt parameter is required")), pom)
    else
      match GenerateWithVisualContext w pr validationFail with
      | .genError code msg =>
        (.resp (.error ("generate_with_visual_context") code msg), pom)
      | .plainError msg =>
        (.resp (.error ("generate_with_visual_context") ("generation_error")
            msg), pom)
      | .ok result =>
        if result.status = "processing" then
          let pom2 := pom.Add result.predictionID
            { predictionID := result.predictionID
              storageID := result.storageID
              operation := "generate_with_visual_context"
              startTime := now0
              model := result.model
              params := [] }
          (.resp (.processing ("generate_with_visual_context")
              result.predictionID result.storageID 45), pom2)
        else
          (.resp (.success ("generate_with_visual_context") result.id
              [("file_path", result.filePath), ("url", result.url)]
              result.predictionID), pom)

/-- The return value `WaitForCompletion` produces at a tick that observes a
terminal status: the prediction together with `nil`, a failure error, or a
cancellation error. -/
def classifyTerminal (p : Prediction) (t : Nat) : WaitRet :=
  if p.status = .succeeded then ⟨some p, none, t⟩
  else if p.status = .failed then
    ⟨some p, some (.predFailed (predErrMsg p)), t⟩
  else ⟨some p, some .predCanceled, t⟩

lemma ctxFire_none (t : Nat) : ctxFire none t = none := rfl

lemma pollNonTerminal_elim {poll : Nat → PollRes} {t : Nat}
    (h : pollNonTerminal poll t = true) :
    ∃ p, poll t = .ok p ∧ p.status.isTerminal = false := by
  unfold pollNonTerminal at h
  cases hpoll : poll t with
  | ok p => exact ⟨p, rfl, by simpa [hpoll] using h⟩
  | err m => rw [hpoll] at h; simp at h

lemma nonterminal_status {p : Prediction} (h : p.status.isTerminal = false) :
    p.status ≠ .succeeded ∧ p.status ≠ .failed ∧ p.status ≠ .canceled := by
  cases hs : p.status <;> simp [JobStatus.isTerminal, hs] at h ⊢

/-- One non-decisive tick: the context does not fire by the next tick, the
deadline has not passed, and the poll reports a healthy non-terminal
status — the loop simply advances two seconds. -/
lemma waitLoop_skip {poll : Nat → PollRes} {cancelAt : Option Nat}
    {deadline now : Nat}
    (hcf : ctxFire cancelAt (now + 2) = none)
    (hdl : now + 2 ≤ deadline)
    (hnt : pollNonTerminal poll (now + 2) = true) :
    waitLoop poll cancelAt deadline now =
      waitLoop poll cancelAt deadline (now + 2) := by
  obtain ⟨p, hp, hs⟩ := pollNonTerminal_elim hnt
  obtain ⟨h1, h2, h3⟩ := nonterminal_status hs
  rw [waitLoop]
  simp only [hcf, hp]
  rw [if_neg (by omega)]
  simp [h1, h2, h3]

/-- Skipping `n` consecutive non-decisive ticks. -/
lemma waitLoop_advance {poll : Nat → PollRes} {cancelAt : Option Nat}
    {deadline : Nat} :
    ∀ n now,
    (∀ k, k < n → ctxFire cancelAt (now + 2 * (k + 1)) = none ∧
        now + 2 * (k + 1) ≤ deadline ∧
        pollNonTerminal poll (now + 2 * (k + 1)) = true) →
    waitLoop poll cancelAt deadline now =
      waitLoop poll cancelAt deadline (now + 2 * n) := by
  intro n
  induction n with
  | zero => intro now _; rfl
  | succ m ih =>
    intro now h
    obtain ⟨hcf, hdl, hnt⟩ := h 0 (Nat.succ_pos m)
    rw [waitLoop_skip (by simpa using hcf) (by omega) (by simpa using hnt)]
    rw [ih (now + 2)]
    · ring_nf
    · intro k hk
      obtain ⟨hcf', hdl', hnt'⟩ := h (k + 1) (by omega)
      refine ⟨?_, by omega, ?_⟩
      · have : now + 2 + 2 * (k + 1) = now + 2 * (k + 1 + 1) := by ring
        rw [this]; exact hcf'
      · have : now + 2 + 2 * (k + 1) = now + 2 * (k + 1 + 1) := by ring
        rw [this]; exact hnt'

/-- The loop returns the context-done outcome at exactly the cancellation
time `c` when every tick strictly before `c` is within the deadline and
non-decisive. -/
lemma waitLoop_cancel_aux {poll : Nat → PollRes} {c deadline : Nat} :
    ∀ fuel t0, c - t0 ≤ fuel → t0 ≤ c →
    (∀ j, 0 < j → t0 + 2 * j < c →
        t0 + 2 * j ≤ deadline ∧ pollNonTerminal poll (t0 + 2 * j) = true) →
    waitLoop poll (some c) deadline t0 = ⟨none, some .ctxDone, c⟩ := by
  intro fuel
  induction fuel with
  | zero =>
    intro t0 hf hc0 _
    have hc : c = t0 := by omega
    rw [waitLoop]
    simp [ctxFire, hc, Nat.le_add_right]
  | succ n ih =>
    intro t0 hf hc0 hcd
    by_cases hlt : c ≤ t0 + 2
    · rw [waitLoop]
      simp only [ctxFire, if_pos hlt]
      simp [Nat.max_eq_right hc0]
    · push_neg at hlt
      obtain ⟨hdl, hnt⟩ := hcd 1 Nat.one_pos (by omega)
      rw [waitLoop_skip (by simp [ctxFire]; omega) (by omega) (by simpa using hnt)]
      apply ih (t0 + 2) (by omega) (by omega)
      intro j hj hjc
      have := hcd (j + 1) (by omega) (by omega)
      have h2 : t0 + 2 + 2 * j = t0 + 2 * (j + 1) := by ring
      rw [h2]
      exact hcd (j + 1) (by omega) (by omega)

lemma waitLoop_cancel {poll : Nat → PollRes} {c deadline t0 : Nat}
    (hc0 : t0 ≤ c)
    (hcd : ∀ j, 0 < j → t0 + 2 * j < c →
        t0 + 2 * j ≤ deadline ∧ pollNonTerminal poll (t0 + 2 * j) = true) :
    waitLoop poll (some c) deadline t0 = ⟨none, some .ctxDone, c⟩ :=
  waitLoop_cancel_aux (c - t0) t0 (Nat.le_refl _) hc0 hcd

/-- A decisive tick that observes a terminal status within the deadline, the
context not having fired: the loop returns that terminal outcome at that
tick. -/
lemma waitLoop_terminal {poll : Nat → PollRes} {cancelAt : Option Nat}
    {deadline t0 k : Nat} {p : Prediction}
    (hk : 0 < k)
    (hcf : ∀ j, 0 < j → j ≤ k → ctxFire cancelAt (t0 + 2 * j) = none)
    (hdl : t0 + 2 * k ≤ deadline)
    (hnt : ∀ j, 0 < j → j < k → pollNonTerminal poll (t0 + 2 * j) = true)
    (hp : poll (t0 + 2 * k) = .ok p)
    (hterm : p.status.isTerminal = true) :
    waitLoop poll cancelAt deadline t0 = classifyTerminal p (t0 + 2 * k) := by
  rw [waitLoop_advance (k - 1) t0 (by
    intro j hj
    exact ⟨hcf (j + 1) (by omega) (by omega), by omega,
      hnt (j + 1) (by omega) (by omega)⟩)]
  have hnow : t0 + 2 * (k - 1) + 2 = t0 + 2 * k := by omega
  rw [waitLoop]
  simp only [hnow, hcf k hk (Nat.le_refl k), hp]
  rw [if_neg (by omega)]
  unfold classifyTerminal
  cases hs : p.status <;> simp [JobStatus.isTerminal, hs] at hterm ⊢

/-- A decisive tick whose poll fails within the deadline: the loop surfaces
the transport error at that tick, with no retry. -/
lemma waitLoop_pollErr {poll : Nat → PollRes} {cancelAt : Option Nat}
    {deadline t0 k : Nat} {m : String}
    (hk : 0 < k)
    (hcf : ∀ j, 0 < j → j ≤ k → ctxFire cancelAt (t0 + 2 * j) = none)
    (hdl : t0 + 2 * k ≤ deadline)
    (hnt : ∀ j, 0 < j → j < k → pollNonTerminal poll (t0 + 2 * j) = true)
    (hp : poll (t0 + 2 * k) = .err m) :
    waitLoop poll cancelAt deadline t0 =
      ⟨none, some (.pollErr m), t0 + 2 * k⟩ := by
  rw [waitLoop_advance (k - 1) t0 (by
    intro j hj
    exact ⟨hcf (j + 1) (by omega) (by omega), by omega,
      hnt (j + 1) (by omega) (by omega)⟩)]
  have hnow : t0 + 2 * (k - 1) + 2 = t0 + 2 * k := by omega
  rw [waitLoop]
  simp only [hnow, hcf k hk (Nat.le_refl k), hp]
  rw [if_neg (by omega)]

/-- With no cancellation and every in-deadline tick non-decisive, the loop
returns the timeout outcome at the first tick strictly past the deadline
`t0 + maxWait`, carrying the result of one final status probe whose own
error is discarded. -/
lemma waitLoop_timeout {poll : Nat → PollRes} {maxWait t0 : Nat}
    (hnt : ∀ j, 0 < j → 2 * j ≤ maxWait →
        pollNonTerminal poll (t0 + 2 * j) = true) :
    waitLoop poll none (t0 + maxWait) t0 =
      ⟨(match poll (t0 + 2 * (maxWait / 2 + 1)) with
        | .ok p => some p
        | .err _ => none),
       some .timedOutAfter, t0 + 2 * (maxWait / 2 + 1)⟩ := by
  rw [waitLoop_advance (maxWait / 2) t0 (by
    intro k hk
    refine ⟨ctxFire_none _, by omega, hnt (k + 1) (by omega) (by omega)⟩)]
  rw [waitLoop]
  have hnow : t0 + 2 * (maxWait / 2) + 2 = t0 + 2 * (maxWait / 2 + 1) := by
    ring
  simp only [ctxFire_none, hnow]
  rw [if_pos (by omega)]
  cases poll (t0 + 2 * (maxWait / 2 + 1)) <;> rfl

lemma Get_Remove_self (pom : PendingOperationsManager) (pid : String) :
    (pom.Remove pid).Get pid = none := by
  unfold PendingOperationsManager.Remove PendingOperationsManager.Get
  have h : (pom.operations.filter (fun kv => kv.1 ≠ pid)).find?
      (fun kv => kv.1 = pid) = none := by
    rw [List.find?_eq_none]
    intro kv hkv
    have hmem := List.of_mem_filter hkv
    simp at hmem ⊢
    exact hmem
  rw [h]

/-- A continuation whose bounded wait runs into the `context.WithTimeout`
deadline (the job stayed non-terminal at every tick): the handler returns
the refreshed processing response and leaves the registry untouched. -/
lemma continueCore_timeout {w : ContinueWorld} {pom : PendingOperationsManager}
    {now0 waitN : Nat} {pid : String} {op : PendingOperation}
    (hpar : w.parentCancelAt = none)
    (hnt : ∀ j, 0 < j → now0 + 2 * j < now0 + waitN →
        pollNonTerminal w.poll (now0 + 2 * j) = true) :
    continueCore w pom now0 waitN pid op =
      (.resp (.processing op.operation pid op.storageID
          (EstimateRemainingTime op.operation (now0 + waitN - op.startTime))),
       pom) := by
  unfold continueCore
  rw [hpar]
  have hw : waitLoop w.poll (some (now0 + waitN)) (now0 + waitN) now0 =
      ⟨none, some .ctxDone, now0 + waitN⟩ :=
    waitLoop_cancel (by omega) (fun j hj hjc => ⟨by omega, hnt j hj hjc⟩)
  simp only [hw]
  simp [ctxErrAt]

/-- A continuation that observes a succeeded prediction within its bounded
wait, with a usable output URL, a storage ID and a successful save: the
handler removes the registry entry and returns the success response. -/
lemma continueCore_succeeded {w : ContinueWorld}
    {pom : PendingOperationsManager} {now0 waitN k : Nat} {pid path : String}
    {op : PendingOperation} {p : Prediction}
    (hpar : w.parentCancelAt = none)
    (hk : 0 < k) (hin : now0 + 2 * k < now0 + waitN)
    (hnt : ∀ j, 0 < j → j < k → pollNonTerminal w.poll (now0 + 2 * j) = true)
    (hp : w.poll (now0 + 2 * k) = .ok p)
    (hs : p.status = .succeeded)
    (hurl : extractOutputURL (some p) ≠ "")
    (hsid : op.storageID ≠ "")
    (hsave : w.saveImage op.storageID (extractOutputURL (some p))
        ("continued_" ++ pid) = .ok path) :
    continueCore w pom now0 waitN pid op =
      (.resp (.success op.operation op.storageID
          [("output", path), ("url", extractOutputURL (some p))] pid),
       pom.Remove pid) := by
  unfold continueCore
  rw [hpar]
  have hw : waitLoop w.poll (some (now0 + waitN)) (now0 + waitN) now0 =
      ⟨some p, none, now0 + 2 * k⟩ := by
    have hterm := @waitLoop_terminal w.poll (some (now0 + waitN))
      (now0 + waitN) now0 k p hk
      (fun j hj hjk => by simp [ctxFire]; omega) (by omega) hnt hp
      (by rw [hs]; rfl)
    simpa [classifyTerminal, hs] using hterm
  simp only [hw]
  simp [hurl, hsid, hsave]

/-- A continuation whose single status poll fails strictly before the
context deadline: the handler removes the registry entry and propagates the
wrapped error. -/
lemma continueCore_pollErr {w : ContinueWorld}
    {pom : PendingOperationsManager} {now0 waitN k : Nat} {pid m : String}
    {op : PendingOperation}
    (hpar : w.parentCancelAt = none)
    (hk : 0 < k) (hin : now0 + 2 * k < now0 + waitN)
    (hnt : ∀ j, 0 < j → j < k → pollNonTerminal w.poll (now0 + 2 * j) = true)
    (hp : w.poll (now0 + 2 * k) = .err m) :
    continueCore w pom now0 waitN pid op =
      (.goError ("operation failed: " ++ m), pom.Remove pid) := by
  unfold continueCore
  rw [hpar]
  have hw : waitLoop w.poll (some (now0 + waitN)) (now0 + waitN) now0 =
      ⟨none, some (.pollErr m), now0 + 2 * k⟩ :=
    waitLoop_pollErr hk (fun j hj hjk => by simp [ctxFire]; omega)
      (by omega) hnt hp
  simp only [hw]
  have hctx : ctxErrAt none (now0 + waitN) (now0 + 2 * k) = none := by
    simp [ctxErrAt]; omega
  simp [hctx, werrMsg]

/-- `handleContinueOperation` on a registered handle whose job stays
non-terminal for the whole continuation wait. -/
lemma handleContinue_timeout {w : ContinueWorld}
    {pom : PendingOperationsManager} {now0 : Nat} {pid : String}
    {op : PendingOperation} {wta : Option Int}
    (hpid : pid ≠ "")
    (hget : pom.Get pid = some op)
    (hpar : w.parentCancelAt = none)
    (hnt : ∀ j, 0 < j → now0 + 2 * j < now0 + (clampWaitTime wta).toNat →
        pollNonTerminal w.poll (now0 + 2 * j) = true) :
    handleContinueOperation w pom now0 ⟨some pid, wta⟩ =
      (.resp (.processing op.operation pid op.storageID
          (EstimateRemainingTime op.operation
            (now0 + (clampWaitTime wta).toNat - op.startTime))), pom) := by
  unfold handleContinueOperation
  simp only [if_neg hpid, hget]
  exact continueCore_timeout hpar hnt

/-- C6: a `Continue` call whose bounded wait times out while the job is still
non-terminal returns the registry pair unchanged — the resulting manager is
the very manager passed in, so the entry and its original `startTime` are
preserved and the TTL clock is not reset — together with a refreshed
processing response whose estimate is recomputed from the preserved
`startTime`. -/
theorem C6_continue_timeout_frame (w : ContinueWorld)
    (pom : PendingOperationsManager) (now0 : Nat) (pid : String)
    (op : PendingOperation) (wta : Option Int)
    (hpid : pid ≠ "")
    (hget : pom.Get pid = some op)
    (hpar : w.parentCancelAt = none)
    (hnt : ∀ j, 0 < j → now0 + 2 * j < now0 + (clampWaitTime wta).toNat →
        pollNonTerminal w.poll (now0 + 2 * j) = true) :
    handleContinueOperation w pom now0 ⟨some pid, wta⟩ =
      (.resp (.processing op.operation pid op.storageID
          (EstimateRemainingTime op.operation
            (now0 + (clampWaitTime wta).toNat - op.startTime))), pom) ∧
    pom.Get pid = some op :=
  ⟨handleContinue_timeout hpid hget hpar hnt, hget⟩

/-- A world whose upstream job never terminates and whose collaborators all
succeed; used to instantiate continuation theorems. -/
def busyWorld : ContinueWorld :=
  { poll := fun _ => .ok ⟨"pW", .processing, .null, none⟩
    saveImage := fun _ _ _ => .ok ("/img.png")
    saveMetadataOk := true
    fileSize := fun _ => 1024
    parentCancelAt := none }

def c6op : PendingOperation :=
  { predictionID := "p6aaaaaaa", storageID := "st6", operation := "generate_image",
    startTime := 0, model := "flux-schnell", params := [] }

def c6pom : PendingOperationsManager := ⟨[("p6aaaaaaa", c6op)]⟩

/-- Witness for C6 at a concrete registry and poll script: default wait 30,
elapsed 30, estimate clamped up to the 5-second floor. -/
theorem C6_witness :
    handleContinueOperation busyWorld c6pom 0 ⟨some ("p6aaaaaaa"), none⟩ =
      (.resp (.processing ("generate_image") ("p6aaaaaaa") ("st6") 5),
       c6pom) ∧
    c6pom.Get ("p6aaaaaaa") = some c6op := by
  have h := C6_continue_timeout_frame busyWorld c6pom 0 ("p6aaaaaaa") c6op none
    (by decide) rfl rfl (fun j hj hlt => rfl)
  exact h

/-- C2 (amended): a `Continue` call that observes a terminal succeeded status
within its bounded wait removes the handle's registry entry — the handle is
absent immediately after — and, provided the succeeded prediction carries an
output URL, the entry has a storage ID and artifact persistence succeeds,
returns the completed (success) response. -/
theorem C2_continue_succeeded_completes (w : ContinueWorld)
    (pom : PendingOperationsManager) (now0 k : Nat) (pid path : String)
    (op : PendingOperation) (p : Prediction) (wta : Option Int)
    (hpid : pid ≠ "")
    (hget : pom.Get pid = some op)
    (hpar : w.parentCancelAt = none)
    (hk : 0 < k)
    (hin : 2 * k < (clampWaitTime wta).toNat)
    (hnt : ∀ j, 0 < j → j < k → pollNonTerminal w.poll (now0 + 2 * j) = true)
    (hp : w.poll (now0 + 2 * k) = .ok p)
    (hs : p.status = .succeeded)
    (hurl : extractOutputURL (some p) ≠ "")
    (hsid : op.storageID ≠ "")
    (hsave : w.saveImage op.storageID (extractOutputURL (some p))
        ("continued_" ++ pid) = .ok path) :
    handleContinueOperation w pom now0 ⟨some pid, wta⟩ =
      (.resp (.success op.operation op.storageID
          [("output", path), ("url", extractOutputURL (some p))] pid),
       pom.Remove pid) ∧
    (pom.Remove pid).Get pid = none := by
  constructor
  · unfold handleContinueOperation
    simp only [if_neg hpid, hget]
    exact continueCore_succeeded hpar hk (by omega) hnt hp hs hurl hsid hsave
  · exact Get_Remove_self pom pid

def c2op : PendingOperation :=
  { predictionID := "p2bbbbbbb", storageID := "st2", operation := "generate_image",
    startTime := 0, model := "flux-schnell", params := [] }

def c2pom : PendingOperationsManager := ⟨[("p2bbbbbbb", c2op)]⟩

/-- A world whose job is already succeeded with a usable output URL. -/
def doneWorld : ContinueWorld :=
  { poll := fun _ => .ok ⟨"p2bbbbbbb", .succeeded, .str ("http://img"), none⟩
    saveImage := fun _ _ _ => .ok ("/out.png")
    saveMetadataOk := true
    fileSize := fun _ => 2048
    parentCancelAt := none }

/-- Witness for C2 at a concrete registry: success response, entry gone. -/
theorem C2_witness :
    handleContinueOperation doneWorld c2pom 0 ⟨some ("p2bbbbbbb"), none⟩ =
      (.resp (.success ("generate_image") ("st2")
          [("output", "/out.png"), ("url", "http://img")] ("p2bbbbbbb")),
       ⟨[]⟩) ∧
    (PendingOperationsManager.Get ⟨[]⟩ ("p2bbbbbbb")) = none := by
  have h := C2_continue_succeeded_completes doneWorld c2pom 0 1 ("p2bbbbbbb")
    ("/out.png") c2op ⟨"p2bbbbbbb", .succeeded, .str ("http://img"), none⟩
    none (by decide) rfl rfl (by decide) (by decide)
    (fun j hj hlt => by omega) rfl rfl (by decide) (by decide) rfl
  exact h

/-- A world whose job is succeeded but whose prediction carries no output
URL at all. -/
def noOutputWorld : ContinueWorld :=
  { poll := fun _ => .ok ⟨"p2bbbbbbb", .succeeded, .null, none⟩
    saveImage := fun _ _ _ => .ok ("/out.png")
    saveMetadataOk := true
    fileSize := fun _ => 2048
    parentCancelAt := none }

/-- Counterexample to C2 as stated: the continuation observes a terminal
succeeded status within its bounded wait (first poll, second 2 of 30), yet
the call returns a Go error — not a completed response — because the
succeeded prediction has no output URL.  (The registry entry is still
removed.) -/
theorem C2_counterexample :
    noOutputWorld.poll 2 = .ok ⟨"p2bbbbbbb", .succeeded, .null, none⟩ ∧
    handleContinueOperation noOutputWorld c2pom 0 ⟨some ("p2bbbbbbb"), none⟩ =
      (.goError ("no output URL in completed prediction"), ⟨[]⟩) := by
  refine ⟨rfl, ?_⟩
  unfold handleContinueOperation
  simp only [if_neg (by decide : ¬ ("p2bbbbbbb" : String) = "")]
  rw [show c2pom.Get ("p2bbbbbbb") = some c2op from rfl]
  -- the succeeded prediction has an empty output URL, so take the error
  -- branch of `continueCore` directly
  show continueCore noOutputWorld c2pom 0 30 ("p2bbbbbbb") c2op =
    (.goError ("no output URL in completed prediction"), ⟨[]⟩)
  unfold continueCore
  have hw : waitLoop noOutputWorld.poll (some (0 + 30)) (0 + 30) 0 =
      ⟨some ⟨"p2bbbbbbb", .succeeded, .null, none⟩, none, 0 + 2 * 1⟩ := by
    have hterm := @waitLoop_terminal noOutputWorld.poll
      (some (0 + 30)) (0 + 30) 0 1 ⟨"p2bbbbbbb", .succeeded, .null, none⟩
      (by decide) (fun j hj hjk => by simp [ctxFire]; omega) (by omega)
      (fun j hj hlt => by omega) rfl rfl
    simpa [classifyTerminal] using hterm
  simp only [show noOutputWorld.parentCancelAt = none from rfl]
  simp only [hw]
  simp [ctxErrAt, extractOutputURL, PendingOperationsManager.Remove, c2pom]

/-- C10: a `Continue` call whose bounded wait ends with a non-timeout error —
here a single failed status poll, strictly before the continuation deadline —
removes the handle's registry entry and propagates the wrapped error to the
caller; the handle is afterwards absent from the registry, so the pending
operation is unrecoverable through it, even though the hypotheses constrain
the job's status only up to the failing poll (it may well still be
running). -/
theorem C10_continue_poll_error_drops_entry (w : ContinueWorld)
    (pom : PendingOperationsManager) (now0 k : Nat) (pid m : String)
    (op : PendingOperation) (wta : Option Int)
    (hpid : pid ≠ "")
    (hget : pom.Get pid = some op)
    (hpar : w.parentCancelAt = none)
    (hk : 0 < k)
    (hin : 2 * k < (clampWaitTime wta).toNat)
    (hnt : ∀ j, 0 < j → j < k → pollNonTerminal w.poll (now0 + 2 * j) = true)
    (hp : w.poll (now0 + 2 * k) = .err m) :
    handleContinueOperation w pom now0 ⟨some pid, wta⟩ =
      (.goError ("operation failed: " ++ m), pom.Remove pid) ∧
    (pom.Remove pid).Get pid = none := by
  constructor
  · unfold handleContinueOperation
    simp only [if_neg hpid, hget]
    exact continueCore_pollErr hpar hk (by omega) hnt hp
  · exact Get_Remove_self pom pid

/-- A world whose very first status poll fails with a transport error. -/
def flakyWorld : ContinueWorld :=
  { poll := fun _ => .err ("connection refused")
    saveImage := fun _ _ _ => .ok ("/out.png")
    saveMetadataOk := true
    fileSize := fun _ => 0
    parentCancelAt := none }

def c10op : PendingOperation :=
  { predictionID := "pAcccccccc", storageID := "stX", operation := "generate_image",
    startTime := 0, model := "flux-schnell", params := [] }

def c10pom : PendingOperationsManager := ⟨[("pAcccccccc", c10op)]⟩

/-- Witness for C10: one failed poll at second 2, error surfaced, entry
gone. -/
theorem C10_witness :
    handleContinueOperation flakyWorld c10pom 0 ⟨some ("pAcccccccc"), none⟩ =
      (.goError ("operation failed: connection refused"), ⟨[]⟩) ∧
    (PendingOperationsManager.Get ⟨[]⟩ ("pAcccccccc")) = none := by
  have h := C10_continue_poll_error_drops_entry flakyWorld c10pom 0 1
    ("pAcccccccc") ("connection refused") c10op none (by decide) rfl rfl
    (by decide) (by decide) (fun j hj hlt => by omega) rfl
  exact h

/-- Every branch of `continueCore` yields a response or a Go error; the only
panic site of the continuation handler is the storage-ID slice taken before
`continueCore` runs. -/
lemma continueCore_no_panic (w : ContinueWorld)
    (pom : PendingOperationsManager) (now0 waitN : Nat) (pid : String)
    (op : PendingOperation) (msg : String) :
    (continueCore w pom now0 waitN pid op).1 ≠ .panic msg := by
  unfold continueCore
  repeat' split
  all_goals dsimp only
  all_goals split_ifs <;> try simp
  all_goals (repeat' split)
  all_goals simp

/-- Counterexample to C7 as stated: `Continue` on the handle `"abc"` —
nonempty, absent from the (empty) registry — panics: the degraded-path
storage ID is built from `predictionID[:8]`, a Go string slice that is out
of range for handles shorter than 8 bytes. -/
theorem C7_counterexample :
    (PendingOperationsManager.Get ⟨[]⟩ ("abc")) = none ∧
    handleContinueOperation busyWorld ⟨[]⟩ 0 ⟨some ("abc"), none⟩ =
      (.panic ("slice bounds out of range"), ⟨[]⟩) := by
  exact ⟨rfl, rfl⟩

/-- C7 (amended): for every handle of length at least 8 that is absent from
the registry — Replicate prediction IDs are much longer — `Continue` does
not crash: it synthesizes a best-effort pending operation (kind
`generate_with_visual_context`, storage ID `"cont_"` plus the first 8 bytes)
and returns an ordinary response or error, never a panic. -/
theorem C7_absent_handle_no_panic (w : ContinueWorld)
    (pom : PendingOperationsManager) (now0 : Nat) (pid : String)
    (wta : Option Int) (msg : String)
    (hget : pom.Get pid = none)
    (hlen : 8 ≤ pid.length) :
    (handleContinueOperation w pom now0 ⟨some pid, wta⟩).1 ≠ .panic msg := by
  have hpid : pid ≠ "" := by
    intro h
    rw [h] at hlen
    simp at hlen
  unfold handleContinueOperation
  simp only [if_neg hpid, hget]
  rw [if_neg (by omega)]
  exact continueCore_no_panic _ _ _ _ _ _ _

/-- Witness for C7 at a concrete 8-character absent handle, whose degraded
continuation times out into a pending response rather than crashing. -/
theorem C7_witness :
    (handleContinueOperation busyWorld ⟨[]⟩ 0
        ⟨some ("abcdefgh"), none⟩).1 ≠ .panic ("x") := by
  exact C7_absent_handle_no_panic busyWorld ⟨[]⟩ 0 ("abcdefgh") none ("x")
    rfl (by decide)

/-- A visual-context dispatch whose job is still non-terminal at the 15-second
initial wait, when the outer `time.After` timer wins the race: the handler
registers the pending operation and returns the processing response. -/
lemma handleVC_timeout {w : DispatchWorld} {pom : PendingOperationsManager}
    {now0 : Nat} {prompt id : String} {pred : Prediction}
    (hprompt : prompt ≠ "")
    (hid : w.generateID = .ok id)
    (hcp : w.createPrediction = .ok pred)
    (hrace : w.raceResultChanWins = false)
    (hnt : ∀ j, 0 < j → 2 * j ≤ 14 → pollNonTerminal w.poll (2 * j) = true) :
    handleGenerateWithVisualContext w pom now0 (some prompt) none =
      (.resp (.processing ("generate_with_visual_context") pred.id id 45),
       pom.Add pred.id
        { predictionID := pred.id
          storageID := id
          operation := "generate_with_visual_context"
          startTime := now0
          model := "runwayml/gen4-image"
          params := [] }) := by
  have hw : waitLoop w.poll (some 15) 15 0 = ⟨none, some .ctxDone, 15⟩ :=
    waitLoop_cancel (by omega)
      (fun j hj hjc => ⟨by omega, by simpa using hnt j hj (by omega)⟩)
  unfold handleGenerateWithVisualContext GenerateWithVisualContext
  dsimp only
  rw [if_neg hprompt]
  simp only [hid, hcp, hw, hrace]
  norm_num [werrMsg]
  rw [if_pos (by decide : strContainsGo ("operation timed out after 15s")
    ("timed out") = true)]
  simp

/-- A dispatch world whose job never terminates and whose inner wait's
context-deadline error wins the outer select race. -/
def c4raceWorld : DispatchWorld :=
  { generateID := .ok ("img4")
    createPrediction := .ok ⟨"pred4XYZW", .starting, .null, none⟩
    poll := fun _ => .ok ⟨"pred4XYZW", .processing, .null, none⟩
    saveImage := fun _ _ _ => .ok ("/x.png")
    saveMetadataOk := true
    raceResultChanWins := true }

/-- Counterexample to C4 as stated: a visual-context dispatch whose job is
still non-terminal when the 15-second initial wait elapses — every poll
reports `processing` — yet, when the inner wait's context-deadline error
reaches the result channel before the outer 15-second timer fires, the
timeout surfaces to the caller as a `generation_failed` failed response (the
error text lacks the "timed out" marker the code greps for), and nothing is
registered. -/
theorem C4_counterexample :
    pollNonTerminal c4raceWorld.poll 14 = true ∧
    handleGenerateWithVisualContext c4raceWorld ⟨[]⟩ 0 (some ("castle")) none =
      (.resp (.error ("generate_with_visual_context") ("generation_failed")
          ("Generation failed: context deadline exceeded")), ⟨[]⟩) := by
  refine ⟨rfl, ?_⟩
  have hw : waitLoop c4raceWorld.poll (some 15) 15 0 =
      ⟨none, some .ctxDone, 15⟩ :=
    waitLoop_cancel (by omega) (fun j hj hjc => ⟨by omega, rfl⟩)
  unfold handleGenerateWithVisualContext GenerateWithVisualContext
  dsimp only
  rw [if_neg (by decide : ¬ ("castle" : String) = "")]
  simp only [show c4raceWorld.generateID = .ok ("img4") from rfl,
    show c4raceWorld.createPrediction =
      .ok ⟨"pred4XYZW", .starting, .null, none⟩ from rfl,
    show c4raceWorld.raceResultChanWins = true from rfl, hw]
  norm_num [werrMsg]
  rw [if_neg (by decide : ¬ strContainsGo ("context deadline exceeded")
    ("timed out") = true)]
  simp

/-- C4 (amended): a bounded-wait timeout is always converted into a pending
response carrying the handle: unconditionally for `Continue` (first
conjunct — the response is the processing response for the handle, the
registry untouched), and for a visual-context `Dispatch` provided the
dispatch-side 15-second timer wins the select race against the inner wait's
context-deadline error (second conjunct); when the other side wins, the same
timeout surfaces as a failed response (see the counterexample). -/
theorem C4_timeout_absorbed :
    (∀ (w : ContinueWorld) (pom : PendingOperationsManager) (now0 : Nat)
        (pid : String) (op : PendingOperation) (wta : Option Int),
      pid ≠ "" → pom.Get pid = some op → w.parentCancelAt = none →
      (∀ j, 0 < j → now0 + 2 * j < now0 + (clampWaitTime wta).toNat →
          pollNonTerminal w.poll (now0 + 2 * j) = true) →
      (handleContinueOperation w pom now0 ⟨some pid, wta⟩).1 =
        .resp (.processing op.operation pid op.storageID
          (EstimateRemainingTime op.operation
            (now0 + (clampWaitTime wta).toNat - op.startTime)))) ∧
    (∀ (w : DispatchWorld) (pom : PendingOperationsManager) (now0 : Nat)
        (prompt id : String) (pred : Prediction),
      prompt ≠ "" → w.generateID = .ok id → w.createPrediction = .ok pred →
      w.raceResultChanWins = false →
      (∀ j, 0 < j → 2 * j ≤ 14 → pollNonTerminal w.poll (2 * j) = true) →
      handleGenerateWithVisualContext w pom now0 (some prompt) none =
        (.resp (.processing ("generate_with_visual_context") pred.id id 45),
         pom.Add pred.id
          { predictionID := pred.id
            storageID := id
            operation := "generate_with_visual_context"
            startTime := now0
            model := "runwayml/gen4-image"
            params := [] })) := by
  constructor
  · intro w pom now0 pid op wta hpid hget hpar hnt
    rw [handleContinue_timeout hpid hget hpar hnt]
  · intro w pom now0 prompt id pred hprompt hid hcp hrace hnt
    exact handleVC_timeout hprompt hid hcp hrace hnt

/-- The same dispatch world with the outer timer winning the race. -/
def c4timerWorld : DispatchWorld :=
  { generateID := .ok ("img4")
    createPrediction := .ok ⟨"pred4XYZW", .starting, .null, none⟩
    poll := fun _ => .ok ⟨"pred4XYZW", .processing, .null, none⟩
    saveImage := fun _ _ _ => .ok ("/x.png")
    saveMetadataOk := true
    raceResultChanWins := false }

/-- Witness for C4: both conjuncts at concrete inputs — a continuation
timeout becoming a processing response, and a visual-context dispatch
timeout becoming a processing response plus a registry entry. -/
theorem C4_witness :
    (handleContinueOperation busyWorld c6pom 0 ⟨some ("p6aaaaaaa"), none⟩).1 =
      .resp (.processing ("generate_image") ("p6aaaaaaa") ("st6") 5) ∧
    handleGenerateWithVisualContext c4timerWorld ⟨[]⟩ 0 (some ("castle"))
        none =
      (.resp (.processing ("generate_with_visual_context") ("pred4XYZW")
          ("img4") 45),
       ⟨[(("pred4XYZW"),
          { predictionID := "pred4XYZW"
            storageID := "img4"
            operation := "generate_with_visual_context"
            startTime := 0
            model := "runwayml/gen4-image"
            params := [] })]⟩) := by
  constructor
  · exact C4_timeout_absorbed.1 busyWorld c6pom 0 ("p6aaaaaaa") c6op none
      (by decide) rfl rfl (fun j hj hlt => rfl)
  · exact C4_timeout_absorbed.2 c4timerWorld ⟨[]⟩ 0 ("castle") ("img4")
      ⟨"pred4XYZW", .starting, .null, none⟩ (by decide) rfl rfl rfl
      (fun j hj hle => rfl)

/-- C3 (amended): the bounded waiter `WaitForCompletion`, polling on a fixed
2-second ticker, (1) returns the terminal outcome at the very tick that first
observes a terminal status within `maxWait`; (2) when every in-bound tick is
non-terminal and no cancellation fires, returns the timed-out outcome at the
first tick strictly past `maxWait`, reporting the status obtained by one
final probe at that moment — or no status when that final probe itself
fails; (3) returns the canceled outcome at exactly the moment the external
cancellation signal fires, without waiting for the next tick; (4) returns a
transport error at the very tick whose single poll fails, with no retry. -/
theorem C3_bounded_waiter_outcomes :
    (∀ (poll : Nat → PollRes) (t0 maxWait k : Nat) (p : Prediction),
      0 < k → 2 * k ≤ maxWait →
      (∀ j, 0 < j → j < k → pollNonTerminal poll (t0 + 2 * j) = true) →
      poll (t0 + 2 * k) = .ok p → p.status.isTerminal = true →
      WaitForCompletion poll none maxWait t0 =
        classifyTerminal p (t0 + 2 * k)) ∧
    (∀ (poll : Nat → PollRes) (t0 maxWait : Nat),
      (∀ j, 0 < j → 2 * j ≤ maxWait →
          pollNonTerminal poll (t0 + 2 * j) = true) →
      WaitForCompletion poll none maxWait t0 =
        ⟨(match poll (t0 + 2 * (maxWait / 2 + 1)) with
          | .ok p => some p
          | .err _ => none),
         some .timedOutAfter, t0 + 2 * (maxWait / 2 + 1)⟩) ∧
    (∀ (poll : Nat → PollRes) (t0 maxWait c : Nat),
      t0 ≤ c → c ≤ t0 + 2 * (maxWait / 2 + 1) →
      (∀ j, 0 < j → t0 + 2 * j < c →
          pollNonTerminal poll (t0 + 2 * j) = true) →
      WaitForCompletion poll (some c) maxWait t0 =
        ⟨none, some .ctxDone, c⟩) ∧
    (∀ (poll : Nat → PollRes) (t0 maxWait k : Nat) (m : String),
      0 < k → 2 * k ≤ maxWait →
      (∀ j, 0 < j → j < k → pollNonTerminal poll (t0 + 2 * j) = true) →
      poll (t0 + 2 * k) = .err m →
      WaitForCompletion poll none maxWait t0 =
        ⟨none, some (.pollErr m), t0 + 2 * k⟩) := by
  refine ⟨?_, ?_, ?_, ?_⟩
  · intro poll t0 maxWait k p hk hbound hnt hp hterm
    exact waitLoop_terminal hk (fun j hj hjk => ctxFire_none _) (by omega)
      hnt hp hterm
  · intro poll t0 maxWait hnt
    exact waitLoop_timeout hnt
  · intro poll t0 maxWait c hc0 hcb hnt
    exact waitLoop_cancel hc0 (fun j hj hjc => ⟨by omega, hnt j hj hjc⟩)
  · intro poll t0 maxWait k m hk hbound hnt hp
    exact waitLoop_pollErr hk (fun j hj hjk => ctxFire_none _) (by omega)
      hnt hp

/-- A script that reports `processing` on the in-bound tick and then suffers
a transport failure on the final timeout probe. -/
def c3poll : Nat → PollRes := fun t =>
  if t ≤ 2 then .ok ⟨"p3ccccccc", .processing, .null, none⟩
  else .err ("connection reset")

/-- Counterexample to C3 as stated: with `maxWait = 2`, the tick at second 2
observes the (known) status `processing`, but the wait times out at second 4
and its final status probe fails, so the timed-out outcome carries no
prediction at all — it does not report the last known status. -/
theorem C3_counterexample :
    c3poll 2 = .ok ⟨"p3ccccccc", .processing, .null, none⟩ ∧
    WaitForCompletion c3poll none 2 0 =
      ⟨none, some .timedOutAfter, 4⟩ := by
  refine ⟨rfl, ?_⟩
  unfold WaitForCompletion
  rw [waitLoop_skip (by rfl) (by omega) (by rfl)]
  rw [waitLoop]
  simp [ctxFire, c3poll]

/-- A script succeeding at the second tick. -/
def c3okPoll : Nat → PollRes := fun t =>
  if t ≤ 2 then .ok ⟨"p3ddddddd", .processing, .null, none⟩
  else .ok ⟨"p3ddddddd", .succeeded, .str ("http://img3"), none⟩

/-- Witness for C3: all four conjuncts at concrete scripts — a success
observed at second 4 of a 10-second wait, a pure timeout, a cancellation at
second 3, and a first-poll transport failure. -/
theorem C3_witness :
    WaitForCompletion c3okPoll none 10 0 =
      ⟨some ⟨"p3ddddddd", .succeeded, .str ("http://img3"), none⟩, none, 4⟩ ∧
    WaitForCompletion (fun _ => .ok ⟨"pB", .processing, .null, none⟩) none 2
        0 = ⟨some ⟨"pB", .processing, .null, none⟩, some .timedOutAfter, 4⟩ ∧
    WaitForCompletion (fun _ => .ok ⟨"pB", .processing, .null, none⟩)
        (some 3) 10 0 = ⟨none, some .ctxDone, 3⟩ ∧
    WaitForCompletion (fun _ => .err ("boom")) none 30 0 =
      ⟨none, some (.pollErr ("boom")), 2⟩ := by
  refine ⟨?_, ?_, ?_, ?_⟩
  · have h := C3_bounded_waiter_outcomes.1 c3okPoll 0 10 2
      ⟨"p3ddddddd", .succeeded, .str ("http://img3"), none⟩ (by decide)
      (by decide) (fun j hj hjk => by
        interval_cases j
        · rfl) rfl rfl
    exact h
  · have h := C3_bounded_waiter_outcomes.2.1
      (fun _ => .ok ⟨"pB", .processing, .null, none⟩) 0 2
      (fun j hj hle => rfl)
    exact h
  · have h := C3_bounded_waiter_outcomes.2.2.1
      (fun _ => .ok ⟨"pB", .processing, .null, none⟩) 0 10 3 (by decide)
      (by decide) (fun j hj hlt => rfl)
    exact h
  · have h := C3_bounded_waiter_outcomes.2.2.2
      (fun _ => .err ("boom")) 0 30 1 ("boom") (by decide) (by decide)
      (fun j hj hjk => by omega) rfl
    exact h

/-- A dispatch world whose job never leaves `processing`. -/
def c1World : DispatchWorld :=
  { generateID := .ok ("img1")
    createPrediction := .ok ⟨"pred1VWXYZ", .starting, .null, none⟩
    poll := fun _ => .ok ⟨"pred1VWXYZ", .processing, .null, none⟩
    saveImage := fun _ _ _ => .ok ("/y.png")
    saveMetadataOk := true
    raceResultChanWins := false }

/-- C1 (code bug): a `generate_image` dispatch whose upstream job is still
non-terminal when its bounded wait elapses — `GenerateImage` in
`generate.go`, the generator `NewReplicateImageHandler` wires in, polls 60
times and gives up — returns the `timeout` error response, not a pending
(`processing`) response, and registers nothing: the registry stays empty.
The repository's own tests (`handler_test.go`, `TestAsyncFlow_Complete`)
expect a processing response and a registry entry here. -/
theorem C1_generate_image_timeout_is_error :
    genPollLoop c1World.poll 0 60 = .timeout ∧
    handleGenerateImage c1World ⟨[]⟩ 0 (some ("castle")) ("flux-schnell") =
      (.resp (.error ("generate_image") ("timeout") ("Generation timed out")),
       ⟨[]⟩) := by
  exact ⟨rfl, rfl⟩

/-- C5 (amended): after one sweep cycle run at time `now`, no surviving
registry entry is older than the hard-coded ten minutes (600 seconds) — the
sweep ignores the configured `MaxOperationTime` — and every younger entry
survives unchanged. -/
theorem C5_sweep_evicts_by_hardcoded_ttl (pom : PendingOperationsManager)
    (now : Nat) :
    (∀ e ∈ (pom.cleanupCycle now).operations, now - e.2.startTime ≤ 600) ∧
    (∀ e ∈ pom.operations, now - e.2.startTime ≤ 600 →
        e ∈ (pom.cleanupCycle now).operations) := by
  constructor
  · intro e he
    have hmem := List.of_mem_filter he
    simp at hmem
    omega
  · intro e he hage
    refine List.mem_filter.2 ⟨he, ?_⟩
    simp
    omega

def c5op : PendingOperation :=
  { predictionID := "p5eeeeeee", storageID := "st5", operation := "generate_image",
    startTime := 0, model := "flux-schnell", params := [] }

def c5pom : PendingOperationsManager := ⟨[("p5eeeeeee", c5op)]⟩

/-- Counterexample to C5 as stated: with `REPLICATE_MAX_OPERATION_TIME=1`
the configured `maxOperationTime` is one minute, yet an entry two minutes
old survives the sweep cycle — `cleanupExpired` compares against a literal
ten minutes and never consults the configuration. -/
theorem C5_counterexample :
    (LoadTimeouts ⟨none, none, some ("1"), none⟩).MaxOperationTime = 60 ∧
    (60 : Int) < 120 ∧
    (c5pom.cleanupCycle 120).Get ("p5eeeeeee") = some c5op := by
  refine ⟨by decide, by norm_num, by decide⟩

/-- Witness for C5 at a concrete registry: an entry aged 700 seconds is
evicted by the cycle, one aged 300 survives. -/
theorem C5_witness :
    (∀ e ∈ (PendingOperationsManager.cleanupCycle
        ⟨[(("old1234"),
           { predictionID := "old1234", storageID := "a",
             operation := "generate_image", startTime := 0, model := "",
             params := [] }),
          (("new1234"),
           { predictionID := "new1234", storageID := "b",
             operation := "generate_image", startTime := 400, model := "",
             params := [] })]⟩ 700).operations,
        700 - e.2.startTime ≤ 600) ∧
    (("new1234"),
     ({ predictionID := "new1234", storageID := "b",
        operation := "generate_image", startTime := 400, model := "",
        params := [] } : PendingOperation)) ∈
      (PendingOperationsManager.cleanupCycle
        ⟨[(("old1234"),
           { predictionID := "old1234", storageID := "a",
             operation := "generate_image", startTime := 0, model := "",
             params := [] }),
          (("new1234"),
           { predictionID := "new1234", storageID := "b",
             operation := "generate_image", startTime := 400, model := "",
             params := [] })]⟩ 700).operations := by
  constructor
  · exact (C5_sweep_evicts_by_hardcoded_ttl _ 700).1
  · exact (C5_sweep_evicts_by_hardcoded_ttl _ 700).2 _ (by simp) (by decide)

/-- C8 (amended): every estimate `EstimateRemainingTime` produces lies in
`[5, 60]` and is non-increasing in the elapsed time; a continuation timeout
on a registered handle responds with exactly the typical-duration-minus-
elapsed clamped estimate, measured from the preserved `startTime`; and
across two successive such continuations on the same registered handle the
estimates are non-increasing.  (On a handle absent from the registry the
degraded path re-stamps `startTime`, and successive estimates can grow —
see the counterexample.) -/
theorem C8_estimate_bounds_and_monotonicity :
    (∀ (operation : String) (elapsed : Nat),
      5 ≤ EstimateRemainingTime operation elapsed ∧
      EstimateRemainingTime operation elapsed ≤ 60) ∧
    (∀ (operation : String) (e1 e2 : Nat), e1 ≤ e2 →
      EstimateRemainingTime operation e2 ≤
        EstimateRemainingTime operation e1) ∧
    (∀ (w : ContinueWorld) (pom : PendingOperationsManager)
        (now1 now2 : Nat) (pid : String) (op : PendingOperation)
        (wta1 wta2 : Option Int),
      pid ≠ "" → pom.Get pid = some op → w.parentCancelAt = none →
      (∀ j, 0 < j → now1 + 2 * j < now1 + (clampWaitTime wta1).toNat →
          pollNonTerminal w.poll (now1 + 2 * j) = true) →
      (∀ j, 0 < j → now2 + 2 * j < now2 + (clampWaitTime wta2).toNat →
          pollNonTerminal w.poll (now2 + 2 * j) = true) →
      now1 + (clampWaitTime wta1).toNat ≤
        now2 + (clampWaitTime wta2).toNat →
      handleContinueOperation w pom now1 ⟨some pid, wta1⟩ =
        (.resp (.processing op.operation pid op.storageID
            (EstimateRemainingTime op.operation
              (now1 + (clampWaitTime wta1).toNat - op.startTime))), pom) ∧
      handleContinueOperation w pom now2 ⟨some pid, wta2⟩ =
        (.resp (.processing op.operation pid op.storageID
            (EstimateRemainingTime op.operation
              (now2 + (clampWaitTime wta2).toNat - op.startTime))), pom) ∧
      EstimateRemainingTime op.operation
          (now2 + (clampWaitTime wta2).toNat - op.startTime) ≤
        EstimateRemainingTime op.operation
          (now1 + (clampWaitTime wta1).toNat - op.startTime)) := by
  have hmono : ∀ (operation : String) (e1 e2 : Nat), e1 ≤ e2 →
      EstimateRemainingTime operation e2 ≤
        EstimateRemainingTime operation e1 := by
    intro operation e1 e2 h12
    unfold EstimateRemainingTime
    dsimp only
    split_ifs <;> omega
  refine ⟨?_, hmono, ?_⟩
  · intro operation elapsed
    unfold EstimateRemainingTime
    dsimp only
    constructor <;> (split_ifs <;> omega)
  · intro w pom now1 now2 pid op wta1 wta2 hpid hget hpar hnt1 hnt2 hord
    refine ⟨handleContinue_timeout hpid hget hpar hnt1,
      handleContinue_timeout hpid hget hpar hnt2, hmono _ _ _ (by omega)⟩

/-- Counterexample to C8 as stated: two successive continuations of the same
absent handle both time out into pending responses, and the estimate grows
from 15 to 40 — the degraded path synthesizes a fresh `startTime` at each
call, so a shorter second wait yields a larger estimate.  (Estimates here
follow the synthesized entry, not the elapsed time since the operation
actually started.) -/
theorem C8_counterexample :
    handleContinueOperation busyWorld ⟨[]⟩ 0 ⟨some ("predC8AB"), some 30⟩ =
      (.resp (.processing ("generate_with_visual_context") ("predC8AB")
          ("cont_predC8AB") 15), ⟨[]⟩) ∧
    handleContinueOperation busyWorld ⟨[]⟩ 40 ⟨some ("predC8AB"), some 5⟩ =
      (.resp (.processing ("generate_with_visual_context") ("predC8AB")
          ("cont_predC8AB") 40), ⟨[]⟩) ∧
    (15 : Int) < 40 := by
  refine ⟨?_, ?_, by norm_num⟩
  · unfold handleContinueOperation
    dsimp only
    rw [if_neg (by decide : ¬ ("predC8AB" : String) = "")]
    rw [show (PendingOperationsManager.Get ⟨[]⟩ ("predC8AB")) = none from rfl]
    dsimp only
    rw [if_neg (by decide : ¬ ("predC8AB" : String).length < 8)]
    exact continueCore_timeout rfl (fun j hj hlt => rfl)
  · unfold handleContinueOperation
    dsimp only
    rw [if_neg (by decide : ¬ ("predC8AB" : String) = "")]
    rw [show (PendingOperationsManager.Get ⟨[]⟩ ("predC8AB")) = none from rfl]
    dsimp only
    rw [if_neg (by decide : ¬ ("predC8AB" : String).length < 8)]
    exact continueCore_timeout rfl (fun j hj hlt => rfl)

/-- Witness for C8: bounds at a concrete operation kind, monotonicity at
concrete elapsed times, and two successive registered continuations whose
estimates are non-increasing. -/
theorem C8_witness :
    (5 ≤ EstimateRemainingTime ("generate_image") 0 ∧
      EstimateRemainingTime ("generate_image") 0 ≤ 60) ∧
    EstimateRemainingTime ("generate_image") 40 ≤
      EstimateRemainingTime ("generate_image") 10 ∧
    (handleContinueOperation busyWorld c6pom 0 ⟨some ("p6aaaaaaa"), some 30⟩ =
      (.resp (.processing ("generate_image") ("p6aaaaaaa") ("st6") 5),
       c6pom) ∧
     handleContinueOperation busyWorld c6pom 40
        ⟨some ("p6aaaaaaa"), some 5⟩ =
      (.resp (.processing ("generate_image") ("p6aaaaaaa") ("st6") 5),
       c6pom) ∧
     (5 : Int) ≤ 5) := by
  refine ⟨C8_estimate_bounds_and_monotonicity.1 ("generate_image") 0,
    C8_estimate_bounds_and_monotonicity.2.1 ("generate_image") 10 40
      (by norm_num), ?_⟩
  have h := C8_estimate_bounds_and_monotonicity.2.2 busyWorld c6pom 0 40
    ("p6aaaaaaa") c6op (some 30) (some 5) (by decide) rfl rfl
    (fun j hj hlt => rfl) (fun j hj hlt => rfl) (by decide)
  exact h

/-- A positive current value stays positive under one `LoadTimeouts`
override step. -/
lemma applyOverride_pos {cur scale : Int} (hcur : 0 < cur)
    (hscale : 0 < scale) (v : Option String) :
    0 < applyOverride cur scale v := by
  unfold applyOverride
  cases v with
  | none => exact hcur
  | some s =>
    dsimp only
    split_ifs with hs
    · exact hcur
    · cases hg : goAtoi s with
      | none => exact hcur
      | some n =>
        dsimp only
        split_ifs with hn
        · exact mul_pos hn hscale
        · exact hcur

/-- C9: whatever the environment holds, every loaded timeout is strictly
positive, and an environment value that does not parse to a strictly
positive integer is rejected — the override keeps the previous (default)
value rather than adopting the invalid one. -/
theorem C9_config_rejects_invalid :
    (∀ env : TimeoutEnv,
      0 < (LoadTimeouts env).InitialWait ∧
      0 < (LoadTimeouts env).ContinueWait ∧
      0 < (LoadTimeouts env).MaxOperationTime ∧
      0 < (LoadTimeouts env).PollInterval) ∧
    (∀ (cur scale : Int) (s : String),
      (∀ n, goAtoi s = some n → n ≤ 0) →
      applyOverride cur scale (some s) = cur) := by
  constructor
  · intro env
    refine ⟨?_, ?_, ?_, ?_⟩ <;>
      exact applyOverride_pos (by norm_num) (by norm_num) _
  · intro cur scale s hbad
    unfold applyOverride
    dsimp only
    split_ifs with hs
    · rfl
    · cases hg : goAtoi s with
      | none => rfl
      | some n =>
        have := hbad n hg
        dsimp only
        rw [if_neg (by omega)]

/-- Witness for C9: a fully garbled environment — a non-numeric string, a
negative value, a zero and an empty string — leaves every default in place,
all strictly positive. -/
theorem C9_witness :
    (0 < (LoadTimeouts ⟨some ("abc"), some ("-5"), some ("0"),
        some ("")⟩).InitialWait ∧
      0 < (LoadTimeouts ⟨some ("abc"), some ("-5"), some ("0"),
        some ("")⟩).ContinueWait ∧
      0 < (LoadTimeouts ⟨some ("abc"), some ("-5"), some ("0"),
        some ("")⟩).MaxOperationTime ∧
      0 < (LoadTimeouts ⟨some ("abc"), some ("-5"), some ("0"),
        some ("")⟩).PollInterval) ∧
    applyOverride 30 1 (some ("-5")) = 30 := by
  constructor
  · exact C9_config_rejects_invalid.1 ⟨some ("abc"), some ("-5"),
      some ("0"), some ("")⟩
  · refine C9_config_rejects_invalid.2 30 1 ("-5") ?_
    intro n h
    rw [show goAtoi ("-5") = some (-5) from by decide] at h
    injection h with h2
    omega
